import Mathlib

/-!
Verification of the DT protocol (UDP date/time server and client).

Shallow embedding of `src/server.py` and `src/client.py`:
* bytes are modelled as `List Nat` (each element < 256 where it matters);
* Python's `str` values are modelled as lists of Unicode code points
  (`List Nat`), with `str.encode("utf-8")` / `bytes.decode("utf-8")`
  modelled by an explicit strict UTF-8 codec;
* functions that print an error and drop / exit are modelled with
  `Except`-valued functions whose error constructor identifies the
  error message printed by the source.
-/

/-- Equality of `Except` results is decidable, so that concrete runs of
the embedded functions can be checked by `decide`. -/
instance {ε α : Type} [DecidableEq ε] [DecidableEq α] :
    DecidableEq (Except ε α) := fun x y =>
  match x, y with
  | .error a, .error b => decidable_of_iff (a = b) (by simp)
  | .ok a, .ok b => decidable_of_iff (a = b) (by simp)
  | .error _, .ok _ => isFalse (by simp)
  | .ok _, .error _ => isFalse (by simp)

/-- Big-endian interpretation of a byte list, as Python's
`int.from_bytes(b, "big")`. -/
def fromBytesBE (l : List Nat) : Nat := l.foldl (fun acc b => acc * 256 + b) 0

/-- Python's `n.to_bytes(2, "big")` (the source only ever converts values
that fit in two bytes; Python raises `OverflowError` otherwise, and all
theorems below carry the corresponding range hypotheses). -/
def toBytesBE2 (n : Nat) : List Nat := [n / 256 % 256, n % 256]

/-- Helper for `natToDec`; the first argument is fuel (at least the value
being converted), so the definition is structurally recursive and reduces
inside the kernel. -/
def natToDecAux : Nat → Nat → List Nat
  | 0, _ => []
  | fuel + 1, n => if n = 0 then [] else natToDecAux fuel (n / 10) ++ [48 + n % 10]

/-- Decimal digit string of a natural number, as Python's `str(n)` inside
an f-string: code points of the decimal digits, most significant first. -/
def natToDec (n : Nat) : List Nat :=
  if n = 0 then [48] else natToDecAux n n

/-- Python's `f"{n:02}"`: decimal digits left-padded with a zero to width 2. -/
def pad2 (n : Nat) : List Nat :=
  if n < 10 then 48 :: natToDec n else natToDec n

/-- Code points of a Lean string literal (used to transcribe the Python
string literals of the source). -/
def strCodes (s : String) : List Nat := s.toList.map Char.toNat

/-- A Unicode scalar value: what a Python `str` character produced by
`bytes.decode("utf-8")` can be, and what `str.encode("utf-8")` accepts. -/
def ValidCodePoint (c : Nat) : Prop :=
  c < 0x110000 ∧ ¬(0xD800 ≤ c ∧ c ≤ 0xDFFF)

instance (c : Nat) : Decidable (ValidCodePoint c) := by
  unfold ValidCodePoint; infer_instance

/-- UTF-8 encoding of one code point (Python `str.encode("utf-8")`,
per character). -/
def utf8EncodeChar (c : Nat) : List Nat :=
  if c < 0x80 then [c]
  else if c < 0x800 then [0xC0 + c / 64, 0x80 + c % 64]
  else if c < 0x10000 then
    [0xE0 + c / 4096, 0x80 + c / 64 % 64, 0x80 + c % 64]
  else
    [0xF0 + c / 262144, 0x80 + c / 4096 % 64, 0x80 + c / 64 % 64, 0x80 + c % 64]

/-- UTF-8 encoding of a whole text (Python `text.encode("utf-8")`). -/
def utf8Encode (s : List Nat) : List Nat := (s.map utf8EncodeChar).flatten

/-- Whether a byte is a UTF-8 continuation byte (`0x80..0xBF`). -/
def isCont (b : Nat) : Prop := 0x80 ≤ b ∧ b ≤ 0xBF

instance (b : Nat) : Decidable (isCont b) := by
  unfold isCont; infer_instance

/-- One step of strict UTF-8 decoding: given the lead byte and the
remaining bytes, the decoded scalar value and the bytes after its
sequence, or `none` on malformed input.  The lead-byte ranges together
with the scalar-range tests reject exactly what CPython's strict decoder
rejects: overlong encodings, surrogates, values above `0x10FFFF`, stray
continuation bytes and truncated sequences. -/
def utf8DecodeStep (b : Nat) (rest : List Nat) : Option (Nat × List Nat) :=
  if b < 0x80 then some (b, rest)
  else if 0xC2 ≤ b ∧ b ≤ 0xDF then
    match rest with
    | b1 :: rest2 =>
      if isCont b1 then some ((b - 0xC0) * 64 + (b1 - 0x80), rest2) else none
    | [] => none
  else if 0xE0 ≤ b ∧ b ≤ 0xEF then
    match rest with
    | b1 :: b2 :: rest3 =>
      let c := (b - 0xE0) * 4096 + (b1 - 0x80) * 64 + (b2 - 0x80)
      if isCont b1 ∧ isCont b2 ∧ 0x800 ≤ c ∧ ¬(0xD800 ≤ c ∧ c ≤ 0xDFFF) then
        some (c, rest3)
      else none
    | _ => none
  else if 0xF0 ≤ b ∧ b ≤ 0xF4 then
    match rest with
    | b1 :: b2 :: b3 :: rest4 =>
      let c := (b - 0xF0) * 262144 + (b1 - 0x80) * 4096 + (b2 - 0x80) * 64
                 + (b3 - 0x80)
      if isCont b1 ∧ isCont b2 ∧ isCont b3 ∧ 0x10000 ≤ c ∧ c < 0x110000 then
        some (c, rest4)
      else none
    | _ => none
  else none

/-- Fuel-driven loop of the strict UTF-8 decoder; each step consumes at
least one byte, so fuel equal to the byte count suffices, and the
structural recursion on fuel reduces inside the kernel. -/
def utf8DecodeLoop : Nat → List Nat → Option (List Nat)
  | _, [] => some []
  | 0, _ :: _ => none
  | fuel + 1, b :: rest =>
    match utf8DecodeStep b rest with
    | none => none
    | some (c, r) => (utf8DecodeLoop fuel r).map (fun t => c :: t)

/-- Strict UTF-8 decoding of a whole byte string (Python
`bytes.decode("utf-8")`): `none` models a raised `UnicodeDecodeError`. -/
def utf8Decode (l : List Nat) : Option (List Nat) := utf8DecodeLoop l.length l

example : utf8Decode [0x68, 0x69] = some [0x68, 0x69] := by decide

example : utf8Decode [0xFF] = none := by decide

example : utf8Decode (utf8Encode [0x101, 0x20AC, 0x1F600]) =
    some [0x101, 0x20AC, 0x1F600] := by decide

/-! ## Protocol constants (`server.py` lines 7-9, `client.py` lines 4-6) -/

def MAGIC_NO : Nat := 0x36FB

def DT_REQUEST : Nat := 0x0001

def DT_RESPONSE : Nat := 0x0002

/-- The packet type the client writes into its DT-Request (`client.py`). -/
def PACKET_TYPE : Nat := 0x0001

/-! ## Server model (`server.py`) -/

/-- The three languages of the `LANGUAGE_CODES` dict (named `Language` would clash with Mathlib). -/
inductive Lang
  | English
  | Maori
  | German
deriving DecidableEq, Repr

/-- The `LANGUAGE_CODES` dict (`server.py` lines 19-23); `none` models a
`KeyError` on lookup of an unknown code. -/
def LANGUAGE_CODES : Nat → Option Lang
  | 0x0001 => some .English
  | 0x0002 => some .Maori
  | 0x0003 => some .German
  | _ => none

/-- The `MONTHS` table (`server.py` lines 12-16), each month name as its
list of code points. -/
def MONTHS : Lang → List (List Nat)
  | .English =>
    [strCodes "January", strCodes "February", strCodes "March",
     strCodes "April", strCodes "May", strCodes "June", strCodes "July",
     strCodes "August", strCodes "September", strCodes "October",
     strCodes "November", strCodes "December"]
  | .Maori =>
    [strCodes "Kohi-tātea", strCodes "Hui-tanguru", strCodes "Poutū-te-rangi",
     strCodes "Paenga-whāwhā", strCodes "Haratua", strCodes "Pipiri",
     strCodes "Hōngingoi", strCodes "Here-turi-kōkā", strCodes "Mahuru",
     strCodes "Whiringa-ā-nuku", strCodes "Whiringa-ā-rangi", strCodes "Hakihea"]
  | .German =>
    [strCodes "Januar", strCodes "Februar", strCodes "März", strCodes "April",
     strCodes "Mai", strCodes "Juni", strCodes "Juli", strCodes "August",
     strCodes "September", strCodes "Oktober", strCodes "November",
     strCodes "Dezember"]

/-- The fields of a Python `datetime.datetime` that the program reads.
`datetime.now()` guarantees `1 ≤ month ≤ 12`, `1 ≤ day ≤ 31`,
`hour ≤ 23`, `minute ≤ 59`, `1 ≤ year ≤ 9999`; theorems that need these
facts carry them as hypotheses. -/
structure PyDateTime where
  year : Nat
  month : Nat
  day : Nat
  hour : Nat
  minute : Nat
deriving DecidableEq, Repr

/-- Month name looked up by `MONTHS[lang][dt.month - 1]`.  For
`1 ≤ month ≤ 12` (guaranteed by `datetime.now()`) this is an in-range
index; `getD` returns `[]` out of range where Python would raise or index
from the end. -/
def month_name (lang : Lang) (month : Nat) : List Nat :=
  (MONTHS lang).getD (month - 1) []

/-- The `format_date` function (`server.py` lines 85-91): the dated
sentence for a language, as code points. -/
def format_date (dt : PyDateTime) (lang : Lang) : List Nat :=
  match lang with
  | .English =>
    strCodes "Today\x27s date is " ++ month_name .English dt.month ++
      strCodes " " ++ natToDec dt.day ++ strCodes ", " ++ natToDec dt.year
  | .Maori =>
    strCodes "Ko te rā o tēnei rā ko " ++ month_name .Maori dt.month ++
      strCodes " " ++ natToDec dt.day ++ strCodes ", " ++ natToDec dt.year
  | .German =>
    strCodes "Heute ist der " ++ natToDec dt.day ++ strCodes ". " ++
      month_name .German dt.month ++ strCodes " " ++ natToDec dt.year

/-- The `format_time` function (`server.py` lines 94-100). -/
def format_time (dt : PyDateTime) (lang : Lang) : List Nat :=
  match lang with
  | .English =>
    strCodes "The current time is " ++ pad2 dt.hour ++ strCodes ":" ++
      pad2 dt.minute
  | .Maori =>
    strCodes "Ko te wā o tēnei wā " ++ pad2 dt.hour ++ strCodes ":" ++
      pad2 dt.minute
  | .German =>
    strCodes "Die Uhrzeit ist " ++ pad2 dt.hour ++ strCodes ":" ++
      pad2 dt.minute

/-- The `fill_packet_fields` function (`server.py` lines 103-113).  The
source writes into a zeroed `bytearray` of size `13 + len(TextByte)`,
assigning every position 0-12 and then the whole tail, so the functional
result is this list; the buffer argument is therefore dropped.  Python
raises if a one-byte field is ≥ 256 or the year ≥ 65536; callers in the
source and all theorems below stay in range. -/
def fill_packet_fields (LangCode : Nat) (Dt : PyDateTime) (TextByte : List Nat) :
    List Nat :=
  toBytesBE2 MAGIC_NO ++ toBytesBE2 DT_RESPONSE ++ toBytesBE2 LangCode ++
    toBytesBE2 Dt.year ++
    [Dt.month, Dt.day, Dt.hour, Dt.minute, TextByte.length] ++ TextByte

/-- Reasons the server drops a packet without replying; each constructor
names one of the distinct log lines of `server.py` (`keyError` models a
`KeyError` on `LANGUAGE_CODES[lang_code]`, caught by the bare `except`
of the main loop — again with no datagram sent). -/
inductive DropReason
  | badLength
  | badMagic
  | badPacketType
  | badRequestType
  | keyError
  | textTooLong
deriving DecidableEq, Repr

/-- The `validate_field` function (`server.py` lines 72-82): the if-chain
over MagicNo, PacketType, RequestType, first failing check winning; the
source prints the matching error line and returns `False`. -/
def validate_field (MagicNo PacketType RequestType : Nat) :
    Except DropReason Unit :=
  if MagicNo ≠ MAGIC_NO then .error .badMagic
  else if PacketType ≠ DT_REQUEST then .error .badPacketType
  else if RequestType ∉ ([0x0001, 0x0002] : List Nat) then .error .badRequestType
  else .ok ()

/-- The `handle_request` function (`server.py` lines 117-159).  `data` is
the received datagram, `lang_code` the code fixed for the receiving
socket, `dt` the value of `datetime.datetime.now()` (the clock is an
external input).  `.ok r` means the datagram `r` is passed to `sendto`;
every `.error` branch returns having only printed a log line. -/
def handle_request (data : List Nat) (lang_code : Nat) (dt : PyDateTime) :
    Except DropReason (List Nat) :=
  let magic_no := fromBytesBE ((data.drop 0).take 2)
  let packet_type := fromBytesBE ((data.drop 2).take 2)
  let request_type := fromBytesBE ((data.drop 4).take 2)
  if data.length ≠ 6 then .error .badLength
  else
    match validate_field magic_no packet_type request_type with
    | .error e => .error e
    | .ok () =>
      match LANGUAGE_CODES lang_code with
      | none => .error .keyError
      | some lang =>
        let text :=
          if request_type = 0x0001 then format_date dt lang
          else format_time dt lang
        let text_bytes := utf8Encode text
        if text_bytes.length > 255 then .error .textTooLong
        else .ok (fill_packet_fields lang_code dt text_bytes)

/-- The `get_valid_portnum` function (`server.py` lines 27-52), after the
`sys.argv` length check has passed: each argument is given as the result
of Python's `int(arg)` (`none` = `ValueError`, upon which the source
returns `None` at once).  `len(set(PortNums))` is the number of distinct
elements, i.e. `dedup.length`. -/
def get_valid_portnum (a1 a2 a3 : Option Int) : Option (List Int) :=
  match a1, a2, a3 with
  | some p1, some p2, some p3 =>
    let PortNums : List Int := [p1, p2, p3]
    if PortNums.dedup.length ≠ 3 then none
    else if PortNums.any (fun p => p ≤ 0) then none
    else if ¬ (PortNums.all (fun p => 1024 ≤ p ∧ p ≤ 64000)) then none
    else some PortNums
  | _, _, _ => none

/-- The socket-to-language association set up by `main` (`server.py`
lines 171 and 188-193): the socket bound to the first port serves
English with code `0x0001`, the second Māori with `0x0002`, the third
German with `0x0003`. -/
def main_socket_languages : List (Nat × Lang) :=
  [(0x0001, .English), (0x0002, .Maori), (0x0003, .German)]

/-! ## Client model (`client.py`) -/

/-- Errors on which the client prints a message, closes the socket and
exits; each constructor names one of the distinct error lines of
`client.py` (`tooSmall` = "Packet is too small to be a DT_Response",
`invalidText` = "Packet has invalid text", `lengthMismatch` =
"Packet text length is incorrect", and so on). -/
inductive ClientError
  | tooSmall
  | invalidText
  | badMagic
  | badPacketType
  | badLang
  | lengthMismatch
  | badYear
  | badMonth
  | badDay
  | badHour
  | badMinute
deriving DecidableEq, Repr

/-- The tuple returned by `extract_response_data` (`client.py` line 109). -/
structure DecodedResponse where
  magic_no : Nat
  packet_type : Nat
  lang_code : Nat
  text : List Nat
  text_length : Nat
  day : Nat
  month : Nat
  year : Nat
  hour : Nat
  minute : Nat
deriving DecidableEq, Repr

/-- The `extract_response_data` function (`client.py` lines 97-117).
Indexing `response[8]` … `response[12]` raises `IndexError` exactly when
the packet is shorter than 13 bytes (the slices `response[0:2]` etc.
never raise), caught as the too-small error; `response[13:13+L]`
truncates at the end of the packet, and its strict UTF-8 decode raising
`UnicodeDecodeError` is caught as the invalid-text error. -/
def extract_response_data (response : List Nat) :
    Except ClientError DecodedResponse :=
  match response with
  | b0 :: b1 :: b2 :: b3 :: b4 :: b5 :: b6 :: b7 :: b8 :: b9 :: b10 :: b11 ::
      b12 :: rest =>
    match utf8Decode (rest.take b12) with
    | none => .error .invalidText
    | some text =>
      .ok { magic_no := b0 * 256 + b1
            packet_type := b2 * 256 + b3
            lang_code := b4 * 256 + b5
            text := text
            text_length := b12
            day := b9
            month := b8
            year := b6 * 256 + b7
            hour := b10
            minute := b11 }
  | _ => .error .tooSmall

/-- The `validate_response_packet_1` function (`client.py` lines
119-141): the structural pass, first failing check winning. -/
def validate_response_packet_1 (response : List Nat)
    (magic_no packet_type lang_code text_length : Nat) :
    Except ClientError Unit :=
  if response.length < 13 then .error .tooSmall
  else if magic_no ≠ MAGIC_NO then .error .badMagic
  else if packet_type ≠ DT_RESPONSE then .error .badPacketType
  else if lang_code ∉ ([0x0001, 0x0002, 0x0003] : List Nat) then .error .badLang
  else if response.length ≠ 13 + text_length then .error .lengthMismatch
  else .ok ()

/-- The `validate_response_packet_2` function (`client.py` lines
143-165): the semantic pass over the date-time fields.  The source's
`0 <= hour` and `0 <= minute` lower bounds hold trivially for byte
values, hence for `Nat`. -/
def validate_response_packet_2 (day month year hour minute : Nat) :
    Except ClientError Unit :=
  if 2100 ≤ year then .error .badYear
  else if ¬ (1 ≤ month ∧ month ≤ 12) then .error .badMonth
  else if ¬ (1 ≤ day ∧ day ≤ 31) then .error .badDay
  else if ¬ (hour ≤ 23) then .error .badHour
  else if ¬ (minute ≤ 59) then .error .badMinute
  else .ok ()

/-- The `process_response` function (`client.py` lines 90-95): extraction
(which performs the UTF-8 decode) runs first, then the structural pass,
then the semantic pass; `.ok` means the response is printed. -/
def process_response (response : List Nat) :
    Except ClientError DecodedResponse := do
  let d ← extract_response_data response
  let _ ← validate_response_packet_1 response d.magic_no d.packet_type
    d.lang_code d.text_length
  let _ ← validate_response_packet_2 d.day d.month d.year d.hour d.minute
  pure d

/-- The DT-Request the client builds in `send_request` (`client.py`
lines 56-59): a zeroed 6-byte buffer whose three 2-byte slices are
assigned in turn. -/
def client_request (request_type : Nat) : List Nat :=
  toBytesBE2 MAGIC_NO ++ toBytesBE2 PACKET_TYPE ++ toBytesBE2 request_type

/-- The `validate_and_get_request_type` function (`client.py` lines
8-19), after the argument-count check: `none` models `sys.exit(1)`. -/
def validate_and_get_request_type (arg : String) : Option Nat :=
  if arg = "date" then some 0x0001
  else if arg = "time" then some 0x0002
  else none

example : natToDec 0 = [48] := by decide

example : natToDec 2024 = [50, 48, 50, 52] := by decide

example : pad2 7 = [48, 55] := by decide

example : get_valid_portnum (some 30001) (some 30002) (some 30003) =
    some [30001, 30002, 30003] := by decide

example : get_valid_portnum (some 30001) (some 30001) (some 80) = none := by
  decide

example : handle_request [0x36, 0xFB, 0x00, 0x01, 0x00] 1 ⟨2024, 1, 1, 0, 0⟩ =
    .error .badLength := by decide

example : handle_request [0x36, 0xFB, 0x00, 0x01, 0x00, 0x02] 1
    ⟨2024, 1, 1, 9, 5⟩ =
    .ok (fill_packet_fields 1 ⟨2024, 1, 1, 9, 5⟩
      (utf8Encode (strCodes "The current time is 09:05"))) := by decide

example : process_response (fill_packet_fields 1 ⟨2024, 1, 1, 9, 5⟩
    (utf8Encode (strCodes "The current time is 09:05"))) =
    .ok { magic_no := 0x36FB, packet_type := 0x0002, lang_code := 1,
          text := strCodes "The current time is 09:05", text_length := 25,
          day := 1, month := 1, year := 2024, hour := 9, minute := 5 } := by
  decide

/-! ## C4: semantic validation boundaries -/

/-- C4: the requester's semantic validation pass accepts a decoded
response's date-time fields exactly when Year < 2100, 1 ≤ Month ≤ 12,
1 ≤ Day ≤ 31, Hour ≤ 23 and Minute ≤ 59 (the lower bounds 0 ≤ Hour,
0 ≤ Minute being trivial for byte values); in particular Year=2099,
Month=1, Month=12, Hour=23, Minute=59 are accepted while Year=2100,
Month=0, Month=13, Hour=24, Minute=60 are rejected with an error that
terminates processing — there is no partial acceptance. -/
theorem c4_semantic_validation (day month year hour minute : Nat) :
    validate_response_packet_2 day month year hour minute = .ok () ↔
      (year < 2100 ∧ 1 ≤ month ∧ month ≤ 12 ∧ 1 ≤ day ∧ day ≤ 31 ∧
        hour ≤ 23 ∧ minute ≤ 59) := by
  unfold validate_response_packet_2
  split_ifs <;> simp_all

/-! ## C5: wrong-length datagrams are dropped -/

/-- C5: a datagram whose byte length is not exactly 6, of any length up
to the 1024-byte read bound, makes the server's request handler return
without sending any datagram and without raising: it drops with only the
bad-length log line. -/
theorem c5_wrong_length_dropped (data : List Nat) (lang_code : Nat)
    (dt : PyDateTime) (_hbound : data.length ≤ 1024)
    (hlen : data.length ≠ 6) :
    handle_request data lang_code dt = .error .badLength := by
  unfold handle_request
  simp [hlen]

/-- Witness for `c5_wrong_length_dropped`: a 5-byte datagram. -/
theorem c5_witness :
    ([0x36, 0xFB, 0x00, 0x01, 0x00] : List Nat).length ≤ 1024 ∧
    ([0x36, 0xFB, 0x00, 0x01, 0x00] : List Nat).length ≠ 6 ∧
    handle_request [0x36, 0xFB, 0x00, 0x01, 0x00] 0x0001 ⟨2024, 5, 7, 3, 4⟩ =
      .error .badLength :=
  ⟨by decide, by decide,
    c5_wrong_length_dropped _ _ _ (by decide) (by decide)⟩

/-! ## C2: request validation order -/

/-- C2: on a 6-byte datagram the server applies its checks in the order
MagicNo == 0x36FB, then PacketType == 0x0001, then RequestType ∈
{0x0001, 0x0002}, short-circuiting at the first failing check, and every
failure makes the handler drop the datagram with only the corresponding
log line — no response datagram is sent. -/
theorem c2_validation_order (data : List Nat) (lang_code : Nat)
    (dt : PyDateTime) (hlen : data.length = 6) :
    (fromBytesBE ((data.drop 0).take 2) ≠ MAGIC_NO →
      handle_request data lang_code dt = .error .badMagic) ∧
    (fromBytesBE ((data.drop 0).take 2) = MAGIC_NO →
      fromBytesBE ((data.drop 2).take 2) ≠ DT_REQUEST →
      handle_request data lang_code dt = .error .badPacketType) ∧
    (fromBytesBE ((data.drop 0).take 2) = MAGIC_NO →
      fromBytesBE ((data.drop 2).take 2) = DT_REQUEST →
      fromBytesBE ((data.drop 4).take 2) ∉ ([0x0001, 0x0002] : List Nat) →
      handle_request data lang_code dt = .error .badRequestType) := by
  unfold handle_request validate_field
  refine ⟨fun h1 => ?_, fun h1 h2 => ?_, fun h1 h2 h3 => ?_⟩ <;>
    simp [hlen, h1] <;> simp_all

/-- Witness for `c2_validation_order`: three 6-byte datagrams, one per
failing check. -/
theorem c2_witness :
    handle_request [0x00, 0x00, 0x00, 0x01, 0x00, 0x01] 0x0001
      ⟨2024, 5, 7, 3, 4⟩ = .error .badMagic ∧
    handle_request [0x36, 0xFB, 0x00, 0x02, 0x00, 0x01] 0x0001
      ⟨2024, 5, 7, 3, 4⟩ = .error .badPacketType ∧
    handle_request [0x36, 0xFB, 0x00, 0x01, 0x00, 0x03] 0x0001
      ⟨2024, 5, 7, 3, 4⟩ = .error .badRequestType :=
  ⟨(c2_validation_order _ _ _ (by decide)).1 (by decide),
   (c2_validation_order _ _ _ (by decide)).2.1 (by decide) (by decide),
   (c2_validation_order _ _ _ (by decide)).2.2 (by decide) (by decide)
     (by decide)⟩

/-! ## C9: the client-built request passes server validation -/

/-- Evaluation of `handle_request` on a structurally valid request: with
length 6, correct MagicNo and PacketType, a known RequestType and a known
language, the handler reaches the encode step, where only the
text-too-long guard can still drop the packet.  Shared helper. -/
theorem handle_request_valid_eval (data : List Nat) (lang_code : Nat)
    (lang : Lang) (dt : PyDateTime) (hlen : data.length = 6)
    (hmagic : fromBytesBE ((data.drop 0).take 2) = MAGIC_NO)
    (hptype : fromBytesBE ((data.drop 2).take 2) = DT_REQUEST)
    (hrt : fromBytesBE ((data.drop 4).take 2) ∈ ([0x0001, 0x0002] : List Nat))
    (hlang : LANGUAGE_CODES lang_code = some lang) :
    handle_request data lang_code dt =
      (if (utf8Encode (if fromBytesBE ((data.drop 4).take 2) = 0x0001
            then format_date dt lang else format_time dt lang)).length > 255
       then .error .textTooLong
       else .ok (fill_packet_fields lang_code dt
         (utf8Encode (if fromBytesBE ((data.drop 4).take 2) = 0x0001
            then format_date dt lang else format_time dt lang)))) := by
  have hmagic2 : fromBytesBE (data.take 2) = MAGIC_NO := by
    simpa using hmagic
  unfold handle_request validate_field
  simp [hlen, hmagic2, hptype, hrt, hlang]

/-- C9: for both request kinds, the 6-byte DT-Request built by the
client's `send_request` passes every check of the server's request
validation — length exactly 6, MagicNo 0x36FB, PacketType 0x0001,
RequestType ∈ {0x0001, 0x0002} — so a client-built request is never
dropped by server-side validation (the only remaining drop is the
text-too-long encode guard, which is not a validation check). -/
theorem c9_client_request_accepted (request_type lang_code : Nat)
    (lang : Lang) (dt : PyDateTime)
    (hrt : request_type ∈ ([0x0001, 0x0002] : List Nat))
    (hlang : LANGUAGE_CODES lang_code = some lang) :
    (client_request request_type).length = 6 ∧
    validate_field
      (fromBytesBE (((client_request request_type).drop 0).take 2))
      (fromBytesBE (((client_request request_type).drop 2).take 2))
      (fromBytesBE (((client_request request_type).drop 4).take 2)) =
        .ok () ∧
    (∀ e, handle_request (client_request request_type) lang_code dt =
      .error e → e = .textTooLong) := by
  fin_cases hrt <;>
    refine ⟨by decide, by decide, fun e he => ?_⟩ <;>
    rw [handle_request_valid_eval _ _ lang dt (by decide) (by decide)
      (by decide) (by decide) hlang] at he <;>
    split_ifs at he <;>
    simp_all [client_request, toBytesBE2, fromBytesBE, MAGIC_NO, PACKET_TYPE]

/-- Witness for `c9_client_request_accepted`: the date request, English
socket. -/
theorem c9_witness :
    (client_request 0x0001).length = 6 ∧
    validate_field
      (fromBytesBE (((client_request 0x0001).drop 0).take 2))
      (fromBytesBE (((client_request 0x0001).drop 2).take 2))
      (fromBytesBE (((client_request 0x0001).drop 4).take 2)) = .ok () ∧
    (∀ e, handle_request (client_request 0x0001) 0x0001 ⟨2024, 5, 7, 3, 4⟩ =
      .error e → e = .textTooLong) :=
  c9_client_request_accepted 0x0001 0x0001 .English ⟨2024, 5, 7, 3, 4⟩
    (by decide) (by decide)

/-! ## C8: port-configuration validation -/

/-- Whether `main` (`server.py` lines 163-177) reaches its `bind_socket`
calls: when `get_valid_portnum` fails, `main` runs `sys.exit(1)` first,
so no socket is created or bound. -/
def main_reaches_bind (a1 a2 a3 : Option Int) : Bool :=
  (get_valid_portnum a1 a2 a3).isSome

/-- A three-element list keeps its three elements under `dedup` (Python's
`set`) exactly when they are pairwise distinct.  Shared helper. -/
theorem dedup_three_iff (p1 p2 p3 : Int) :
    (([p1, p2, p3] : List Int).dedup.length = 3) ↔
      (p1 ≠ p2 ∧ p1 ≠ p3 ∧ p2 ≠ p3) := by
  constructor
  · intro h
    have hsub := List.dedup_sublist ([p1, p2, p3] : List Int)
    have heq : ([p1, p2, p3] : List Int).dedup = [p1, p2, p3] :=
      hsub.eq_of_length (by simp [h])
    have hnd : ([p1, p2, p3] : List Int).Nodup := by
      rw [← heq]; exact List.nodup_dedup _
    simp [List.nodup_cons] at hnd
    tauto
  · intro h
    have hnd : ([p1, p2, p3] : List Int).Nodup := by
      simp [List.nodup_cons]
      tauto
    rw [List.dedup_eq_self.mpr hnd]
    rfl

/-- C8: the server's port-configuration check succeeds and returns the
three ports exactly when all three command-line arguments parse as
integers (`some`), are pairwise distinct, and each lies in
[1024, 64000]; on any violation it fails, and `main` then exits before
any socket is created or bound. -/
theorem c8_port_validation (a1 a2 a3 : Option Int) :
    (∀ ports, get_valid_portnum a1 a2 a3 = some ports ↔
      ∃ p1 p2 p3, a1 = some p1 ∧ a2 = some p2 ∧ a3 = some p3 ∧
        ports = [p1, p2, p3] ∧ p1 ≠ p2 ∧ p1 ≠ p3 ∧ p2 ≠ p3 ∧
        (∀ p ∈ ports, 1024 ≤ p ∧ p ≤ 64000)) ∧
    (get_valid_portnum a1 a2 a3 = none →
      main_reaches_bind a1 a2 a3 = false) := by
  constructor
  · intro ports
    match a1, a2, a3 with
    | none, _, _ => simp [get_valid_portnum]
    | some p1, none, _ => simp [get_valid_portnum]
    | some p1, some p2, none => simp [get_valid_portnum]
    | some p1, some p2, some p3 =>
      simp only [get_valid_portnum]
      split_ifs with h1 h2 h3
      · simp only [reduceCtorEq, false_iff]
        rintro ⟨q1, q2, q3, hq1, hq2, hq3, -, h12, h13, h23, -⟩
        cases hq1; cases hq2; cases hq3
        exact h1 ((dedup_three_iff p1 p2 p3).mpr ⟨h12, h13, h23⟩)
      · simp only [reduceCtorEq, false_iff]
        rintro ⟨q1, q2, q3, hq1, hq2, hq3, hports, -, -, -, hrange⟩
        cases hq1; cases hq2; cases hq3
        subst hports
        simp only [List.any_eq_true, decide_eq_true_eq] at h2
        obtain ⟨p, hp, hple⟩ := h2
        have := hrange p hp
        omega
      · have hd := (dedup_three_iff p1 p2 p3).mp (by omega)
        constructor
        · intro hok
          have hports : ports = [p1, p2, p3] := by
            injection hok with h
            exact h.symm
          refine ⟨p1, p2, p3, rfl, rfl, rfl, hports, hd.1, hd.2.1, hd.2.2, ?_⟩
          rw [hports]
          simpa using h3
        · rintro ⟨q1, q2, q3, hq1, hq2, hq3, hports, -⟩
          cases hq1; cases hq2; cases hq3
          rw [hports]
      · simp only [reduceCtorEq, false_iff]
        rintro ⟨q1, q2, q3, hq1, hq2, hq3, hports, -, -, -, hrange⟩
        cases hq1; cases hq2; cases hq3
        subst hports
        exact h3 (by simp only [List.all_eq_true, decide_eq_true_eq]; exact hrange)
  · intro hnone
    unfold main_reaches_bind
    rw [hnone]
    rfl

/-- Witness for `c8_port_validation`: a valid configuration is accepted,
and a configuration with a duplicate port and a port of 80 makes `main`
exit before binding. -/
theorem c8_witness :
    get_valid_portnum (some 30001) (some 30002) (some 30003) =
      some [30001, 30002, 30003] ∧
    main_reaches_bind (some 30001) (some 30001) (some 80) = false :=
  ⟨((c8_port_validation (some 30001) (some 30002) (some 30003)).1
      [30001, 30002, 30003]).mpr
      ⟨30001, 30002, 30003, rfl, rfl, rfl, rfl, by decide, by decide,
        by decide, by decide⟩,
   (c8_port_validation (some 30001) (some 30001) (some 80)).2 (by decide)⟩

/-- One-step evaluation of `extract_response_data` on a packet of at
least 13 bytes.  Shared helper. -/
theorem extract_cons_eval (b0 b1 b2 b3 b4 b5 b6 b7 b8 b9 b10 b11 b12 : Nat)
    (rest : List Nat) :
    extract_response_data (b0 :: b1 :: b2 :: b3 :: b4 :: b5 :: b6 :: b7 ::
      b8 :: b9 :: b10 :: b11 :: b12 :: rest) =
      (match utf8Decode (rest.take b12) with
       | none => .error .invalidText
       | some text =>
         .ok { magic_no := b0 * 256 + b1
               packet_type := b2 * 256 + b3
               lang_code := b4 * 256 + b5
               text := text
               text_length := b12
               day := b9
               month := b8
               year := b6 * 256 + b7
               hour := b10
               minute := b11 }) := rfl

/-- Unfolding of the `Except` do-chain of `process_response`.  Shared
helper. -/
theorem process_response_eval (response : List Nat) :
    process_response response =
      (match extract_response_data response with
       | .error e => .error e
       | .ok d =>
         match validate_response_packet_1 response d.magic_no d.packet_type
             d.lang_code d.text_length with
         | .error e => .error e
         | .ok _ =>
           match validate_response_packet_2 d.day d.month d.year d.hour
               d.minute with
           | .error e => .error e
           | .ok _ => .ok d) := by
  unfold process_response
  cases hx : extract_response_data response with
  | error e => rfl
  | ok d =>
    cases h1 : validate_response_packet_1 response d.magic_no d.packet_type
        d.lang_code d.text_length with
    | error e => simp [h1, Bind.bind, Except.bind]
    | ok u =>
      cases h2 : validate_response_packet_2 d.day d.month d.year d.hour
          d.minute with
      | error e => simp [h1, h2, Bind.bind, Except.bind]
      | ok v =>
        simp [h1, h2, Bind.bind, Except.bind, Pure.pure, Except.pure]

/-! ## C10: the UTF-8 decode runs before the structural checks -/

/-- C10: extraction (and hence the UTF-8 decode of the text slice) runs
before every structural check, so any received response of at least 13
bytes whose text slice — bytes 13 to 13+Length, truncated at the packet
end — is not valid UTF-8 makes the client report the invalid-text error
and exit, regardless of the magic number, packet type, language code or
declared length. -/
theorem c10_invalid_text_first (b0 b1 b2 b3 b4 b5 b6 b7 b8 b9 b10 b11 b12 :
    Nat) (rest : List Nat) (hbad : utf8Decode (rest.take b12) = none) :
    process_response (b0 :: b1 :: b2 :: b3 :: b4 :: b5 :: b6 :: b7 :: b8 ::
      b9 :: b10 :: b11 :: b12 :: rest) = .error .invalidText := by
  rw [process_response_eval, extract_cons_eval, hbad]

/-- Witness for `c10_invalid_text_first`: a 14-byte response whose magic
number (0x0000), packet type (0x0000) and language code (0x0009) are all
wrong and whose 1-byte text slice `FF` is not valid UTF-8. -/
theorem c10_witness :
    process_response [0x00, 0x00, 0x00, 0x00, 0x00, 0x09, 0x00, 0x00, 0x00,
      0x00, 0x00, 0x00, 0x01, 0xFF] = .error .invalidText :=
  c10_invalid_text_first 0x00 0x00 0x00 0x00 0x00 0x09 0x00 0x00 0x00 0x00
    0x00 0x00 0x01 [0xFF] (by decide)

/-! ## C3: over-declared Length is a length mismatch, not too-small -/

/-- C3 as stated is false on the code: this 13-byte response declares
Length 5 while 0 bytes follow offset 13, yet decoding does not fail with
the too-small error — the text slice truncates to empty, decoding
succeeds, and the client reports the length-mismatch error instead. -/
theorem c3_counterexample :
    (([0x36, 0xFB, 0x00, 0x02, 0x00, 0x01, 0x07, 0xE8, 0x01, 0x01, 0x00,
        0x00, 0x05] : List Nat).length = 13) ∧
    (([0x36, 0xFB, 0x00, 0x02, 0x00, 0x01, 0x07, 0xE8, 0x01, 0x01, 0x00,
        0x00, 0x05] : List Nat).drop 13).length < 0x05 ∧
    extract_response_data [0x36, 0xFB, 0x00, 0x02, 0x00, 0x01, 0x07, 0xE8,
      0x01, 0x01, 0x00, 0x00, 0x05] ≠ .error .tooSmall ∧
    process_response [0x36, 0xFB, 0x00, 0x02, 0x00, 0x01, 0x07, 0xE8, 0x01,
      0x01, 0x00, 0x00, 0x05] = .error .lengthMismatch := by
  decide

/-- C3 amended: for every received response of length at least 13 whose
declared Length byte exceeds the number of bytes actually following
offset 13, the client's decode never fails with the too-small error (the
text slice truncates); and whenever the truncated text slice is valid
UTF-8 and the magic-number, packet-type and language checks pass, the
client reports the length-mismatch error. -/
theorem c3_amended (b0 b1 b2 b3 b4 b5 b6 b7 b8 b9 b10 b11 b12 : Nat)
    (rest : List Nat) (hover : rest.length < b12) :
    extract_response_data (b0 :: b1 :: b2 :: b3 :: b4 :: b5 :: b6 :: b7 ::
      b8 :: b9 :: b10 :: b11 :: b12 :: rest) ≠ .error .tooSmall ∧
    (∀ d, extract_response_data (b0 :: b1 :: b2 :: b3 :: b4 :: b5 :: b6 ::
        b7 :: b8 :: b9 :: b10 :: b11 :: b12 :: rest) = .ok d →
      b0 * 256 + b1 = MAGIC_NO → b2 * 256 + b3 = DT_RESPONSE →
      b4 * 256 + b5 ∈ ([0x0001, 0x0002, 0x0003] : List Nat) →
      process_response (b0 :: b1 :: b2 :: b3 :: b4 :: b5 :: b6 :: b7 :: b8 ::
        b9 :: b10 :: b11 :: b12 :: rest) = .error .lengthMismatch) := by
  constructor
  · rw [extract_cons_eval]
    cases h : utf8Decode (rest.take b12) <;> simp [h]
  · intro d hd hm hp hl
    rw [extract_cons_eval] at hd
    rw [process_response_eval, extract_cons_eval]
    cases h : utf8Decode (rest.take b12) with
    | none =>
      rw [h] at hd
      cases hd
    | some text =>
      rw [h] at hd
      injection hd with hd
      subst hd
      have hlen13 : (b0 :: b1 :: b2 :: b3 :: b4 :: b5 :: b6 :: b7 :: b8 ::
          b9 :: b10 :: b11 :: b12 :: rest).length = 13 + rest.length := by
        simp
        omega
      have hne : ¬ (13 + rest.length = 13 + b12) := by omega
      have hlt : ¬ (13 + rest.length < 13) := by omega
      simp [validate_response_packet_1, hm, hp, hl, hlen13, hne, hlt]

/-- Witness for `c3_amended`: the same over-declared Length with valid
structural fields and day 2. -/
theorem c3_amended_witness :
    extract_response_data [0x36, 0xFB, 0x00, 0x02, 0x00, 0x01, 0x07, 0xE8,
      0x01, 0x02, 0x00, 0x00, 0x05] ≠ .error .tooSmall ∧
    (∀ d, extract_response_data [0x36, 0xFB, 0x00, 0x02, 0x00, 0x01, 0x07,
        0xE8, 0x01, 0x02, 0x00, 0x00, 0x05] = .ok d →
      0x36 * 256 + 0xFB = MAGIC_NO → 0x00 * 256 + 0x02 = DT_RESPONSE →
      0x00 * 256 + 0x01 ∈ ([0x0001, 0x0002, 0x0003] : List Nat) →
      process_response [0x36, 0xFB, 0x00, 0x02, 0x00, 0x01, 0x07, 0xE8, 0x01,
        0x02, 0x00, 0x00, 0x05] = .error .lengthMismatch) :=
  c3_amended 0x36 0xFB 0x00 0x02 0x00 0x01 0x07 0xE8 0x01 0x02 0x00 0x00
    0x05 [] (by decide)

/-! ## C1: response codec round trip -/

set_option maxRecDepth 8192 in
/-- A successful decode step consumes bytes only from its input.  Shared
helper. -/
theorem utf8DecodeStep_length (b : Nat) (rest : List Nat) (c : Nat)
    (r : List Nat) (h : utf8DecodeStep b rest = some (c, r)) :
    r.length ≤ rest.length := by
  unfold utf8DecodeStep at h
  split_ifs at h with h1 h2 h3 h4
  · injection h with h
    cases h
    exact le_rfl
  · rcases rest with - | ⟨b1, rest2⟩
    · simp at h
    · simp only [] at h
      split_ifs at h
      injection h with h
      cases h
      simp
  · rcases rest with - | ⟨b1, rest2⟩
    · simp at h
    · rcases rest2 with - | ⟨b2, rest3⟩
      · simp at h
      · simp only [] at h
        split_ifs at h
        injection h with h
        cases h
        simp
        omega
  · rcases rest with - | ⟨b1, rest2⟩
    · simp at h
    · rcases rest2 with - | ⟨b2, rest3⟩
      · simp at h
      · rcases rest3 with - | ⟨b3, rest4⟩
        · simp at h
        · simp only [] at h
          split_ifs at h
          injection h with h
          cases h
          simp
          omega

/-- The decoder loop gives the same answer for any sufficient fuel.
Shared helper. -/
theorem utf8DecodeLoop_fuel (fuel : Nat) : ∀ fuel2 l, l.length ≤ fuel →
    l.length ≤ fuel2 → utf8DecodeLoop fuel l = utf8DecodeLoop fuel2 l := by
  induction fuel with
  | zero =>
    intro fuel2 l h h2
    match l, h with
    | [], _ => cases fuel2 <;> rfl
  | succ fuel ih =>
    intro fuel2 l h h2
    match l, fuel2, h2 with
    | [], fuel2, _ => cases fuel2 <;> rfl
    | b :: rest, fuel2 + 1, h2 =>
      rw [utf8DecodeLoop, utf8DecodeLoop]
      cases hs : utf8DecodeStep b rest with
      | none => rfl
      | some cr =>
        obtain ⟨c, r⟩ := cr
        have hr := utf8DecodeStep_length b rest c r hs
        show Option.map (fun t => c :: t) (utf8DecodeLoop fuel r) =
          Option.map (fun t => c :: t) (utf8DecodeLoop fuel2 r)
        rw [ih fuel2 r (by simp at h; omega) (by simp at h2; omega)]

/-- One-step evaluation of the decoder on a non-empty byte string.
Shared helper. -/
theorem utf8Decode_cons_step (b : Nat) (l : List Nat) :
    utf8Decode (b :: l) =
      (match utf8DecodeStep b l with
       | none => none
       | some (c, r) => (utf8Decode r).map (fun t => c :: t)) := by
  unfold utf8Decode
  have hl : (b :: l).length = l.length + 1 := by simp
  rw [hl, utf8DecodeLoop]
  cases hs : utf8DecodeStep b l with
  | none => rfl
  | some cr =>
    obtain ⟨c, r⟩ := cr
    show Option.map (fun t => c :: t) (utf8DecodeLoop l.length r) =
      Option.map (fun t => c :: t) (utf8Decode r)
    unfold utf8Decode
    rw [utf8DecodeLoop_fuel l.length r.length r
      (utf8DecodeStep_length b l c r hs) le_rfl]

/-- Decoding peels an encoded scalar value off the front of any byte
stream.  Shared helper for the round-trip results. -/
theorem utf8Decode_encodeChar (c : Nat) (h : ValidCodePoint c)
    (rest : List Nat) :
    utf8Decode (utf8EncodeChar c ++ rest) =
      (utf8Decode rest).map (fun t => c :: t) := by
  obtain ⟨hlt, hsurr⟩ := h
  unfold utf8EncodeChar
  by_cases h1 : c < 0x80
  · rw [if_pos h1]
    simp only [List.cons_append, List.nil_append]
    rw [utf8Decode_cons_step]
    simp [utf8DecodeStep, h1]
  · rw [if_neg h1]
    by_cases h2 : c < 0x800
    · rw [if_pos h2]
      simp only [List.cons_append, List.nil_append]
      rw [utf8Decode_cons_step]
      have e0 : ¬ (0xC0 + c / 64 < 0x80) := by omega
      have e1 : 0xC2 ≤ 0xC0 + c / 64 ∧ 0xC0 + c / 64 ≤ 0xDF :=
        ⟨by omega, by omega⟩
      have e2 : isCont (0x80 + c % 64) := ⟨by omega, by omega⟩
      simp [utf8DecodeStep, e0, e1, e2]
      have e3 : c / 64 * 64 + c % 64 = c := by omega
      rw [e3]
    · rw [if_neg h2]
      by_cases h3 : c < 0x10000
      · rw [if_pos h3]
        simp only [List.cons_append, List.nil_append]
        rw [utf8Decode_cons_step]
        have e0 : ¬ (0xE0 + c / 4096 < 0x80) := by omega
        have e1 : ¬ (0xC2 ≤ 0xE0 + c / 4096 ∧ 0xE0 + c / 4096 ≤ 0xDF) := by
          omega
        have e2 : 0xE0 ≤ 0xE0 + c / 4096 ∧ 0xE0 + c / 4096 ≤ 0xEF :=
          ⟨by omega, by omega⟩
        have e3 : isCont (0x80 + c / 64 % 64) := ⟨by omega, by omega⟩
        have e4 : isCont (0x80 + c % 64) := ⟨by omega, by omega⟩
        have e6 : 0x800 ≤ c := by omega
        simp [utf8DecodeStep, e0, e1, e2, e3, e4]
        have hA : c / 4096 * 4096 + c / 64 % 64 * 64 + c % 64 = c := by omega
        rw [hA, if_pos ⟨e6, by omega⟩]
      · rw [if_neg h3]
        simp only [List.cons_append, List.nil_append]
        rw [utf8Decode_cons_step]
        have e0 : ¬ (0xF0 + c / 262144 < 0x80) := by omega
        have e1 : ¬ (0xC2 ≤ 0xF0 + c / 262144 ∧ 0xF0 + c / 262144 ≤ 0xDF) := by
          omega
        have e2 : ¬ (0xE0 ≤ 0xF0 + c / 262144 ∧ 0xF0 + c / 262144 ≤ 0xEF) := by
          omega
        have e3 : 0xF0 ≤ 0xF0 + c / 262144 ∧ 0xF0 + c / 262144 ≤ 0xF4 :=
          ⟨by omega, by omega⟩
        have e4 : isCont (0x80 + c / 4096 % 64) := ⟨by omega, by omega⟩
        have e5 : isCont (0x80 + c / 64 % 64) := ⟨by omega, by omega⟩
        have e6 : isCont (0x80 + c % 64) := ⟨by omega, by omega⟩
        have e8 : 0x10000 ≤ c := by omega
        simp [utf8DecodeStep, e0, e1, e2, e3, e4, e5, e6]
        have hA : c / 262144 * 262144 + c / 4096 % 64 * 4096 +
            c / 64 % 64 * 64 + c % 64 = c := by omega
        rw [hA, if_pos ⟨e8, hlt⟩]

/-- Strict UTF-8 decoding inverts UTF-8 encoding on every text of valid
scalar values.  Shared helper. -/
theorem utf8Decode_utf8Encode (s : List Nat)
    (h : ∀ c ∈ s, ValidCodePoint c) :
    utf8Decode (utf8Encode s) = some s := by
  induction s with
  | nil => rfl
  | cons c t ih =>
    have hc : ValidCodePoint c := h c (by simp)
    have ht : ∀ x ∈ t, ValidCodePoint x := fun x hx => h x (by simp [hx])
    unfold utf8Encode at ih ⊢
    simp only [List.map_cons, List.flatten_cons]
    rw [utf8Decode_encodeChar c hc]
    rw [ih ht]
    rfl

/-- Byte-level unfolding of `fill_packet_fields`.  Shared helper. -/
theorem fill_packet_fields_eq (LangCode : Nat) (Dt : PyDateTime)
    (TextByte : List Nat) :
    fill_packet_fields LangCode Dt TextByte =
      0x36 :: 0xFB :: 0x00 :: 0x02 :: (LangCode / 256 % 256) ::
      (LangCode % 256) :: (Dt.year / 256 % 256) :: (Dt.year % 256) ::
      Dt.month :: Dt.day :: Dt.hour :: Dt.minute :: TextByte.length ::
      TextByte := rfl

/-- Composition used when the client accepts a response.  Shared
helper. -/
theorem process_response_of_ok (response : List Nat) (d : DecodedResponse)
    (hx : extract_response_data response = .ok d)
    (h1 : validate_response_packet_1 response d.magic_no d.packet_type
      d.lang_code d.text_length = .ok ())
    (h2 : validate_response_packet_2 d.day d.month d.year d.hour d.minute =
      .ok ()) :
    process_response response = .ok d := by
  rw [process_response_eval]
  simp only [hx, h1, h2]

/-- C1: for every language code in {0x0001, 0x0002, 0x0003}, every
date-time whose year fits in 16 bits and whose month, day, hour, minute
fit in one byte, and every text of valid scalar values whose UTF-8
encoding is at most 255 bytes, encoding a DT-Response with the server's
`fill_packet_fields` and decoding it with the client's
`extract_response_data` returns exactly the same language code, year,
month, day, hour, minute and text, and the decoded packet passes the
client's structural and semantic validation whenever the date-time
fields are in the valid ranges. -/
theorem c1_roundtrip (lang_code : Nat) (dt : PyDateTime) (text : List Nat)
    (hlang : lang_code ∈ ([0x0001, 0x0002, 0x0003] : List Nat))
    (hyear : dt.year < 65536) (hmonth : dt.month < 256)
    (hday : dt.day < 256) (hhour : dt.hour < 256) (hminute : dt.minute < 256)
    (htext : ∀ c ∈ text, ValidCodePoint c)
    (hlen : (utf8Encode text).length ≤ 255) :
    ∃ d, extract_response_data (fill_packet_fields lang_code dt
        (utf8Encode text)) = .ok d ∧
      d.lang_code = lang_code ∧ d.year = dt.year ∧ d.month = dt.month ∧
      d.day = dt.day ∧ d.hour = dt.hour ∧ d.minute = dt.minute ∧
      d.text = text ∧
      (dt.year < 2100 → 1 ≤ dt.month → dt.month ≤ 12 → 1 ≤ dt.day →
        dt.day ≤ 31 → dt.hour ≤ 23 → dt.minute ≤ 59 →
        process_response (fill_packet_fields lang_code dt (utf8Encode text)) =
          .ok d) := by
  have hsmall : lang_code < 65536 := by
    have h := hlang
    simp only [List.mem_cons, List.not_mem_nil, or_false] at h
    rcases h with h | h | h <;> omega
  have he : lang_code / 256 % 256 * 256 + lang_code % 256 = lang_code := by
    omega
  have hy : dt.year / 256 % 256 * 256 + dt.year % 256 = dt.year := by omega
  have hx : extract_response_data (fill_packet_fields lang_code dt
      (utf8Encode text)) =
      .ok { magic_no := 0x36 * 256 + 0xFB
            packet_type := 0x00 * 256 + 0x02
            lang_code := lang_code / 256 % 256 * 256 + lang_code % 256
            text := text
            text_length := (utf8Encode text).length
            day := dt.day
            month := dt.month
            year := dt.year / 256 % 256 * 256 + dt.year % 256
            hour := dt.hour
            minute := dt.minute } := by
    rw [fill_packet_fields_eq, extract_cons_eval,
      List.take_length, utf8Decode_utf8Encode text htext]
  refine ⟨_, hx, by simpa using he, by simpa using hy, rfl, rfl, rfl, rfl,
    rfl, ?_⟩
  intro g1 g2 g3 g4 g5 g6 g7
  apply process_response_of_ok _ _ hx
  · show validate_response_packet_1
      (fill_packet_fields lang_code dt (utf8Encode text))
      (0x36 * 256 + 0xFB) (0x00 * 256 + 0x02)
      (lang_code / 256 % 256 * 256 + lang_code % 256)
      (utf8Encode text).length = .ok ()
    unfold validate_response_packet_1
    have hL : (fill_packet_fields lang_code dt (utf8Encode text)).length =
        13 + (utf8Encode text).length := by
      rw [fill_packet_fields_eq]
      simp
      omega
    rw [hL]
    rw [if_neg (by omega : ¬ (13 + (utf8Encode text).length < 13))]
    rw [if_neg (by decide : ¬ ((0x36 * 256 + 0xFB : Nat) ≠ MAGIC_NO))]
    rw [if_neg (by decide : ¬ ((0x00 * 256 + 0x02 : Nat) ≠ DT_RESPONSE))]
    rw [if_neg (not_not_intro (show (lang_code / 256 % 256 * 256 +
      lang_code % 256) ∈ ([0x0001, 0x0002, 0x0003] : List Nat) by
        rw [he]; exact hlang))]
    rw [if_neg (by omega : ¬ (13 + (utf8Encode text).length ≠
      13 + (utf8Encode text).length))]
  · show validate_response_packet_2 dt.day dt.month
      (dt.year / 256 % 256 * 256 + dt.year % 256) dt.hour dt.minute = .ok ()
    unfold validate_response_packet_2
    rw [hy]
    rw [if_neg (by omega : ¬ (2100 ≤ dt.year))]
    rw [if_neg (by omega : ¬ ¬ (1 ≤ dt.month ∧ dt.month ≤ 12))]
    rw [if_neg (by omega : ¬ ¬ (1 ≤ dt.day ∧ dt.day ≤ 31))]
    rw [if_neg (by omega : ¬ ¬ (dt.hour ≤ 23))]
    rw [if_neg (by omega : ¬ ¬ (dt.minute ≤ 59))]

/-- Witness for `c1_roundtrip`: English, 7 May 2024 03:04, text "hi". -/
theorem c1_witness :
    ∃ d, extract_response_data (fill_packet_fields 0x0001 ⟨2024, 5, 7, 3, 4⟩
        (utf8Encode (strCodes "hi"))) = .ok d ∧
      d.lang_code = 0x0001 ∧ d.year = 2024 ∧ d.month = 5 ∧ d.day = 7 ∧
      d.hour = 3 ∧ d.minute = 4 ∧ d.text = strCodes "hi" ∧
      ((2024 : Nat) < 2100 → (1 : Nat) ≤ 5 → (5 : Nat) ≤ 12 → (1 : Nat) ≤ 7 →
        (7 : Nat) ≤ 31 → (3 : Nat) ≤ 23 → (4 : Nat) ≤ 59 →
        process_response (fill_packet_fields 0x0001 ⟨2024, 5, 7, 3, 4⟩
          (utf8Encode (strCodes "hi"))) = .ok d) :=
  c1_roundtrip 0x0001 ⟨2024, 5, 7, 3, 4⟩ (strCodes "hi") (by decide)
    (by decide) (by decide) (by decide) (by decide) (by decide) (by decide)
    (by decide)

/-! ## C6, C7: server replies on valid requests -/

/-- A UTF-8 sequence is at most 4 bytes.  Shared helper. -/
theorem utf8EncodeChar_length_le (c : Nat) : (utf8EncodeChar c).length ≤ 4 := by
  unfold utf8EncodeChar
  split_ifs <;> simp

/-- UTF-8 encoding at most quadruples the character count.  Shared
helper. -/
theorem utf8Encode_length_le (s : List Nat) :
    (utf8Encode s).length ≤ 4 * s.length := by
  induction s with
  | nil => simp [utf8Encode]
  | cons c t ih =>
    unfold utf8Encode at ih ⊢
    simp only [List.map_cons, List.flatten_cons, List.length_append,
      List.length_cons]
    have := utf8EncodeChar_length_le c
    omega

/-- Digit-count bound for the fuel-based decimal converter.  Shared
helper. -/
theorem natToDecAux_length_le (fuel : Nat) : ∀ n k, n ≤ fuel → n < 10 ^ k →
    (natToDecAux fuel n).length ≤ k := by
  induction fuel with
  | zero =>
    intro n k h hk
    interval_cases n
    simp [natToDecAux]
  | succ fuel ih =>
    intro n k h hk
    unfold natToDecAux
    by_cases h0 : n = 0
    · simp [h0]
    · rw [if_neg h0]
      have hk1 : k ≠ 0 := by
        intro he
        rw [he] at hk
        simp at hk
        omega
      obtain ⟨k2, rfl⟩ : ∃ k2, k = k2 + 1 := ⟨k - 1, by omega⟩
      have hpow : (10 : Nat) ^ (k2 + 1) = 10 * 10 ^ k2 := by ring
      rw [hpow] at hk
      have := ih (n / 10) k2 (by omega) (by omega)
      simp only [List.length_append, List.length_cons, List.length_nil]
      omega

/-- Python's `str(n)` has at most k digits when `n < 10^k`.  Shared
helper. -/
theorem natToDec_length_le (n k : Nat) (hk : 1 ≤ k) (h : n < 10 ^ k) :
    (natToDec n).length ≤ k := by
  unfold natToDec
  split_ifs with h0
  · simpa using hk
  · exact natToDecAux_length_le n n k le_rfl h

/-- Python's `f"{n:02}"` has at most two characters for `n < 100`.
Shared helper. -/
theorem pad2_length_le (n : Nat) (h : n < 100) : (pad2 n).length ≤ 2 := by
  unfold pad2
  split_ifs with h10
  · have := natToDec_length_le n 1 le_rfl (by simpa using h10)
    simp only [List.length_cons]
    omega
  · exact natToDec_length_le n 2 (by omega) (by simpa using h)

/-- Every month name of every language has at most 16 characters.
Shared helper. -/
theorem month_name_length_le (lang : Lang) (i : Nat) :
    ((MONTHS lang).getD i []).length ≤ 16 := by
  rcases Nat.lt_or_ge i 12 with h | h
  · cases lang <;> interval_cases i <;> decide
  · rw [List.getD_eq_default]
    · simp
    · cases lang <;> simp [MONTHS, strCodes] <;> omega

/-- The formatted date sentence has at most 48 characters for realistic
day and year values.  Shared helper. -/
theorem format_date_length_le (dt : PyDateTime) (lang : Lang)
    (hday : dt.day < 100) (hyear : dt.year < 10000) :
    (format_date dt lang).length ≤ 48 := by
  have hm := month_name_length_le lang (dt.month - 1)
  have hd := natToDec_length_le dt.day 2 (by omega) (by simpa using hday)
  have hy := natToDec_length_le dt.year 4 (by omega) (by simpa using hyear)
  have l1 : (strCodes "Today\x27s date is ").length = 16 := by decide
  have l2 : (strCodes "Ko te rā o tēnei rā ko ").length = 23 := by decide
  have l3 : (strCodes "Heute ist der ").length = 14 := by decide
  have l4 : (strCodes " ").length = 1 := by decide
  have l5 : (strCodes ", ").length = 2 := by decide
  have l6 : (strCodes ". ").length = 2 := by decide
  cases lang <;>
    simp only [format_date, month_name, List.length_append, l1, l2, l3, l4,
      l5, l6] <;>
    omega

/-- The formatted time sentence has at most 48 characters for realistic
hour and minute values.  Shared helper. -/
theorem format_time_length_le (dt : PyDateTime) (lang : Lang)
    (hhour : dt.hour < 100) (hminute : dt.minute < 100) :
    (format_time dt lang).length ≤ 48 := by
  have hh := pad2_length_le dt.hour hhour
  have hm := pad2_length_le dt.minute hminute
  have l1 : (strCodes "The current time is ").length = 20 := by decide
  have l2 : (strCodes "Ko te wā o tēnei wā ").length = 20 := by decide
  have l3 : (strCodes "Die Uhrzeit ist ").length = 16 := by decide
  have l4 : (strCodes ":").length = 1 := by decide
  cases lang <;>
    simp only [format_time, List.length_append, l1, l2, l3, l4] <;>
    omega

/-- C7: on a structurally valid request, if the formatted text's UTF-8
encoding exceeds 255 bytes the responder sends no datagram and raises
nothing — it drops with only the text-too-long log line, so the dispatch
loop continues; otherwise the encoded response datagram has length
exactly 13 plus the text's UTF-8 byte length, and its Length byte
(offset 12) equals that byte length. -/
theorem c7_text_length_guard (data : List Nat) (lang_code : Nat) (lang : Lang)
    (dt : PyDateTime) (hlen : data.length = 6)
    (hmagic : fromBytesBE ((data.drop 0).take 2) = MAGIC_NO)
    (hptype : fromBytesBE ((data.drop 2).take 2) = DT_REQUEST)
    (hrt : fromBytesBE ((data.drop 4).take 2) ∈ ([0x0001, 0x0002] : List Nat))
    (hlang : LANGUAGE_CODES lang_code = some lang) :
    ((utf8Encode (if fromBytesBE ((data.drop 4).take 2) = 0x0001
        then format_date dt lang else format_time dt lang)).length > 255 →
      handle_request data lang_code dt = .error .textTooLong) ∧
    ((utf8Encode (if fromBytesBE ((data.drop 4).take 2) = 0x0001
        then format_date dt lang else format_time dt lang)).length ≤ 255 →
      handle_request data lang_code dt =
        .ok (fill_packet_fields lang_code dt (utf8Encode
          (if fromBytesBE ((data.drop 4).take 2) = 0x0001
           then format_date dt lang else format_time dt lang))) ∧
      (fill_packet_fields lang_code dt (utf8Encode
        (if fromBytesBE ((data.drop 4).take 2) = 0x0001
         then format_date dt lang else format_time dt lang))).length =
        13 + (utf8Encode (if fromBytesBE ((data.drop 4).take 2) = 0x0001
          then format_date dt lang else format_time dt lang)).length ∧
      (fill_packet_fields lang_code dt (utf8Encode
        (if fromBytesBE ((data.drop 4).take 2) = 0x0001
         then format_date dt lang else format_time dt lang))).getD 12 0 =
        (utf8Encode (if fromBytesBE ((data.drop 4).take 2) = 0x0001
          then format_date dt lang else format_time dt lang)).length) := by
  rw [handle_request_valid_eval data lang_code lang dt hlen hmagic hptype hrt
    hlang]
  constructor
  · intro h
    rw [if_pos h]
  · intro h
    rw [if_neg (by omega)]
    refine ⟨rfl, ?_, rfl⟩
    rw [fill_packet_fields_eq]
    simp
    omega

/-- Witness for `c7_text_length_guard`: a time request to the English
socket; the sentence fits, so a datagram of length 13 plus the text
length is produced. -/
theorem c7_witness :
    handle_request [0x36, 0xFB, 0x00, 0x01, 0x00, 0x02] 0x0001
      ⟨2024, 5, 7, 3, 4⟩ =
      .ok (fill_packet_fields 0x0001 ⟨2024, 5, 7, 3, 4⟩
        (utf8Encode (format_time ⟨2024, 5, 7, 3, 4⟩ .English))) ∧
    (fill_packet_fields 0x0001 ⟨2024, 5, 7, 3, 4⟩
      (utf8Encode (format_time ⟨2024, 5, 7, 3, 4⟩ .English))).length =
      13 + (utf8Encode (format_time ⟨2024, 5, 7, 3, 4⟩ .English)).length ∧
    (fill_packet_fields 0x0001 ⟨2024, 5, 7, 3, 4⟩
      (utf8Encode (format_time ⟨2024, 5, 7, 3, 4⟩ .English))).getD 12 0 =
      (utf8Encode (format_time ⟨2024, 5, 7, 3, 4⟩ .English)).length := by
  have h := (c7_text_length_guard [0x36, 0xFB, 0x00, 0x01, 0x00, 0x02] 0x0001
    .English ⟨2024, 5, 7, 3, 4⟩ (by decide) (by decide) (by decide)
    (by decide) (by decide)).2 (by decide)
  have e : fromBytesBE ((([0x36, 0xFB, 0x00, 0x01, 0x00, 0x02] :
      List Nat).drop 4).take 2) = 0x0002 := by decide
  rw [e] at h
  simpa using h

/-- C6: for every valid 6-byte DT-Request handled on a socket of the
server's socket-language table (first socket 0x0001 English, second
0x0002 Māori, third 0x0003 German), the reply has MagicNo 0x36FB at
offset 0, PacketType 0x0002 at offset 2, LangCode equal to that socket's
fixed code at offset 4, and from offset 13 the UTF-8 encoding of the
text produced by that language's date or time formatter for the current
date-time. -/
theorem c6_reply_fields (lang_code : Nat) (lang : Lang) (dt : PyDateTime)
    (data : List Nat)
    (hmem : (lang_code, lang) ∈ main_socket_languages)
    (hlen : data.length = 6)
    (hmagic : fromBytesBE ((data.drop 0).take 2) = MAGIC_NO)
    (hptype : fromBytesBE ((data.drop 2).take 2) = DT_REQUEST)
    (hrt : fromBytesBE ((data.drop 4).take 2) ∈ ([0x0001, 0x0002] : List Nat))
    (_hmonth1 : 1 ≤ dt.month) (_hmonth2 : dt.month ≤ 12)
    (hday1 : 1 ≤ dt.day) (hday2 : dt.day ≤ 31)
    (hhour : dt.hour ≤ 23) (hminute : dt.minute ≤ 59)
    (hyear : dt.year ≤ 9999) :
    LANGUAGE_CODES lang_code = some lang ∧
    handle_request data lang_code dt =
      .ok (fill_packet_fields lang_code dt (utf8Encode
        (if fromBytesBE ((data.drop 4).take 2) = 0x0001
         then format_date dt lang else format_time dt lang))) ∧
    (fill_packet_fields lang_code dt (utf8Encode
      (if fromBytesBE ((data.drop 4).take 2) = 0x0001
       then format_date dt lang else format_time dt lang))).take 2 =
      [0x36, 0xFB] ∧
    ((fill_packet_fields lang_code dt (utf8Encode
      (if fromBytesBE ((data.drop 4).take 2) = 0x0001
       then format_date dt lang else format_time dt lang))).drop 2).take 2 =
      [0x00, 0x02] ∧
    ((fill_packet_fields lang_code dt (utf8Encode
      (if fromBytesBE ((data.drop 4).take 2) = 0x0001
       then format_date dt lang else format_time dt lang))).drop 4).take 2 =
      toBytesBE2 lang_code ∧
    (fill_packet_fields lang_code dt (utf8Encode
      (if fromBytesBE ((data.drop 4).take 2) = 0x0001
       then format_date dt lang else format_time dt lang))).drop 13 =
      utf8Encode (if fromBytesBE ((data.drop 4).take 2) = 0x0001
        then format_date dt lang else format_time dt lang) := by
  have hb : (utf8Encode (if fromBytesBE ((data.drop 4).take 2) = 0x0001
      then format_date dt lang else format_time dt lang)).length ≤ 255 := by
    have h1 : (if fromBytesBE ((data.drop 4).take 2) = 0x0001
        then format_date dt lang else format_time dt lang).length ≤ 48 := by
      split_ifs
      · exact format_date_length_le dt lang (by omega) (by omega)
      · exact format_time_length_le dt lang (by omega) (by omega)
    have h2 := utf8Encode_length_le (if fromBytesBE ((data.drop 4).take 2) =
      0x0001 then format_date dt lang else format_time dt lang)
    omega
  simp only [main_socket_languages, List.mem_cons, List.not_mem_nil,
    or_false] at hmem
  rcases hmem with h | h | h
  · injection h with h1 h2
    subst h1
    subst h2
    refine ⟨rfl, ?_, rfl, rfl, rfl, rfl⟩
    rw [handle_request_valid_eval data 0x0001 .English dt hlen hmagic hptype
      hrt rfl]
    rw [if_neg (by omega)]
  · injection h with h1 h2
    subst h1
    subst h2
    refine ⟨rfl, ?_, rfl, rfl, rfl, rfl⟩
    rw [handle_request_valid_eval data 0x0002 .Maori dt hlen hmagic hptype
      hrt rfl]
    rw [if_neg (by omega)]
  · injection h with h1 h2
    subst h1
    subst h2
    refine ⟨rfl, ?_, rfl, rfl, rfl, rfl⟩
    rw [handle_request_valid_eval data 0x0003 .German dt hlen hmagic hptype
      hrt rfl]
    rw [if_neg (by omega)]

/-- Witness for `c6_reply_fields`: a date request on the Māori socket at
7 May 2024 03:04. -/
theorem c6_witness :
    LANGUAGE_CODES 0x0002 = some Lang.Maori ∧
    handle_request [0x36, 0xFB, 0x00, 0x01, 0x00, 0x01] 0x0002
      ⟨2024, 5, 7, 3, 4⟩ =
      .ok (fill_packet_fields 0x0002 ⟨2024, 5, 7, 3, 4⟩ (utf8Encode
        (if fromBytesBE ((([0x36, 0xFB, 0x00, 0x01, 0x00, 0x01] :
            List Nat).drop 4).take 2) = 0x0001
         then format_date ⟨2024, 5, 7, 3, 4⟩ .Maori
         else format_time ⟨2024, 5, 7, 3, 4⟩ .Maori))) ∧
    (fill_packet_fields 0x0002 ⟨2024, 5, 7, 3, 4⟩ (utf8Encode
      (if fromBytesBE ((([0x36, 0xFB, 0x00, 0x01, 0x00, 0x01] :
          List Nat).drop 4).take 2) = 0x0001
       then format_date ⟨2024, 5, 7, 3, 4⟩ .Maori
       else format_time ⟨2024, 5, 7, 3, 4⟩ .Maori))).take 2 =
      [0x36, 0xFB] ∧
    ((fill_packet_fields 0x0002 ⟨2024, 5, 7, 3, 4⟩ (utf8Encode
      (if fromBytesBE ((([0x36, 0xFB, 0x00, 0x01, 0x00, 0x01] :
          List Nat).drop 4).take 2) = 0x0001
       then format_date ⟨2024, 5, 7, 3, 4⟩ .Maori
       else format_time ⟨2024, 5, 7, 3, 4⟩ .Maori))).drop 2).take 2 =
      [0x00, 0x02] ∧
    ((fill_packet_fields 0x0002 ⟨2024, 5, 7, 3, 4⟩ (utf8Encode
      (if fromBytesBE ((([0x36, 0xFB, 0x00, 0x01, 0x00, 0x01] :
          List Nat).drop 4).take 2) = 0x0001
       then format_date ⟨2024, 5, 7, 3, 4⟩ .Maori
       else format_time ⟨2024, 5, 7, 3, 4⟩ .Maori))).drop 4).take 2 =
      toBytesBE2 0x0002 ∧
    (fill_packet_fields 0x0002 ⟨2024, 5, 7, 3, 4⟩ (utf8Encode
      (if fromBytesBE ((([0x36, 0xFB, 0x00, 0x01, 0x00, 0x01] :
          List Nat).drop 4).take 2) = 0x0001
       then format_date ⟨2024, 5, 7, 3, 4⟩ .Maori
       else format_time ⟨2024, 5, 7, 3, 4⟩ .Maori))).drop 13 =
      utf8Encode (if fromBytesBE ((([0x36, 0xFB, 0x00, 0x01, 0x00, 0x01] :
          List Nat).drop 4).take 2) = 0x0001
        then format_date ⟨2024, 5, 7, 3, 4⟩ .Maori
        else format_time ⟨2024, 5, 7, 3, 4⟩ .Maori) :=
  c6_reply_fields 0x0002 .Maori ⟨2024, 5, 7, 3, 4⟩
    [0x36, 0xFB, 0x00, 0x01, 0x00, 0x01] (by decide) (by decide) (by decide)
    (by decide) (by decide) (by decide) (by decide) (by decide) (by decide)
    (by decide) (by decide) (by decide)
